import Mathlib

/-!
Shallow embedding of the kestrel eBPF enforcement core
(`src/kestrel-ebpf/src/bpf/lsm.bpf.c` and the argument-capture loop of
`src/kestrel-ebpf/src/bpf/main.bpf.c`) together with proofs about the
claims of the specification.

Machine integers are modelled as `Nat` with explicit `% 2^w` where the C
code can wrap; BPF hash maps are modelled as functions `key → Option value`;
each hook handler is a pure function from a store snapshot (plus the values
the kernel supplies: current pid, task start time, monotonic clock, hook
arguments) to its return value, the updated store, and the list of
enforcement events it attempts to emit on the ring buffer.
-/

namespace Kestrel

/-- Action constants from `lsm.bpf.c` (`ACTION_ALLOW`/`ACTION_BLOCK`/`ACTION_KILL`). -/
def ACTION_ALLOW : Int := 0

def ACTION_BLOCK : Int := 1

def ACTION_KILL : Int := 2

/-- Kernel errno values used by the hooks (as positive magnitudes; the C code returns their negation). -/
def EPERM : Int := 1

def EACCES : Int := 13

def ECONNREFUSED : Int := 111

/-- Hook identifiers from `lsm.bpf.c`. -/
def HOOK_BPRM_CHECK_SECURITY : Nat := 1

def HOOK_FILE_OPEN : Nat := 2

def HOOK_INODE_PERMISSION : Nat := 3

def HOOK_SOCKET_CONNECT : Nat := 4

def HOOK_MMAP_FILE : Nat := 5

def HOOK_INODE_UNLINK : Nat := 7

def HOOK_BPF : Nat := 10

def HOOK_PERF_EVENT_OPEN : Nat := 11

/-- Wrapping 64-bit subtraction, the value of `a - b` on C `u64` operands. -/
def u64_sub (a b : Nat) : Nat :=
  (a % 2 ^ 64 + 2 ^ 64 - b % 2 ^ 64) % 2 ^ 64

/-- The C cast `(int)x` of a `u64` value: truncate to 32 bits, then reinterpret as signed. -/
def u64_to_int32 (n : Nat) : Int :=
  if n % 2 ^ 32 < 2 ^ 31 then ((n % 2 ^ 32 : Nat) : Int)
  else ((n % 2 ^ 32 : Nat) : Int) - 2 ^ 32

/-- Model of `struct blocking_rule` of `lsm.bpf.c` (all fields `u64`). -/
structure BlockingRule where
  entity_key : Nat
  action : Nat
  ttl_ns : Nat
  timestamp_ns : Nat
  rule_id : Nat
deriving DecidableEq

/-- The `blocking_rules` BPF hash map, keyed by the 64-bit entity key. -/
abbrev RulesMap := Nat → Option BlockingRule

/-- Snapshot of the four decision-store maps declared in `lsm.bpf.c`. -/
structure Store where
  blocking_rules : RulesMap
  pid_blocking_map : Nat → Option Nat
  path_blocking_map : Nat → Option Nat
  network_blocking_map : Nat → Option Nat

/-- Model of `struct enforcement_event` of `lsm.bpf.c` (the 128-byte `details`
free-text copy is not modelled; no claim concerns its contents). -/
structure EnforcementEvent where
  ts_mono_ns : Nat
  pid : Nat
  hook_type : Nat
  action : Int
  result : Int
  entity_key : Nat
deriving DecidableEq

/-- Result of one hook invocation: the LSM return value, the store after any
expiry-driven deletion, and the enforcement events the handler attempts to emit. -/
structure HookOut where
  ret : Int
  store : Store
  emits : List EnforcementEvent

/-- Embedding of `generate_entity_key` of `lsm.bpf.c`:
`((u64)pid << 32) ^ (start_time >> 32) ^ extra` with `pid : u32`,
`start_time extra : u64`. -/
def generate_entity_key (pid start_time extra : Nat) : Nat :=
  ((pid % 2 ^ 32) <<< 32) ^^^ ((start_time % 2 ^ 64) >>> 32) ^^^ (extra % 2 ^ 64)

/-- Embedding of `check_blocking_rules` of `lsm.bpf.c`: look the entity key up in the rule
map; absent means allow; an entry with `ttl_ns > 0` whose age exceeds the ttl
is deleted and treated as allow; otherwise the rule's action is returned
through the C cast `(int)rule->action`.  Returns the action together with the
rule map after the possible deletion. -/
def check_blocking_rules (rules : RulesMap) (now entity_key : Nat) :
    Int × RulesMap :=
  match rules entity_key with
  | none => (ACTION_ALLOW, rules)
  | some rule =>
    if 0 < rule.ttl_ns then
      if rule.ttl_ns < u64_sub now rule.timestamp_ns then
        (ACTION_ALLOW, fun k => if k = entity_key then none else rules k)
      else
        (u64_to_int32 rule.action, rules)
    else
      (u64_to_int32 rule.action, rules)

/-- Embedding of `check_pid_blocked` of `lsm.bpf.c`: blocked iff the pid maps to value 1. -/
def check_pid_blocked (m : Nat → Option Nat) (pid : Nat) : Int :=
  match m pid with
  | some v => if v = 1 then ACTION_BLOCK else ACTION_ALLOW
  | none => ACTION_ALLOW

/-- Embedding of `check_path_blocked` of `lsm.bpf.c` (defined in the source, called by no hook). -/
def check_path_blocked (m : Nat → Option Nat) (path_hash : Nat) : Int :=
  match m path_hash with
  | some v => if v = 1 then ACTION_BLOCK else ACTION_ALLOW
  | none => ACTION_ALLOW

/-- Embedding of `check_network_blocked` of `lsm.bpf.c`: blocked iff the hash maps to value 1. -/
def check_network_blocked (m : Nat → Option Nat) (addr_hash : Nat) : Int :=
  match m addr_hash with
  | some v => if v = 1 then ACTION_BLOCK else ACTION_ALLOW
  | none => ACTION_ALLOW

/-- The rolling multiply-by-31 accumulation of `lsm_socket_connect`:
`addr_hash = addr_hash * 31 + byte` over the first `n` address bytes, on `u64`. -/
def accum31 (addr : Nat → Nat) : Nat → Nat
  | 0 => 0
  | n + 1 => (accum31 addr n * 31 + addr n % 256) % 2 ^ 64

/-- The destination fingerprint computed by `lsm_socket_connect`
(lines 337-360 of `lsm.bpf.c`): for `AF_INET` (family 2, `addr_len >= 8`)
accumulate `min 4 (addr_len - 4)` address bytes, for `AF_INET6` (family 10,
`addr_len >= 24`) accumulate `min 16 (addr_len - 8)` bytes, then shift left
16 and XOR the (big-endian) port; any other family or length leaves the
hash at its initial value 0. -/
def socket_addr_hash (family : Nat) (addr : Nat → Nat) (port addr_len : Nat) : Nat :=
  if family = 2 ∧ 8 ≤ addr_len then
    (((accum31 addr (min 4 (addr_len - 4))) <<< 16) % 2 ^ 64) ^^^ (port % 2 ^ 16)
  else if family = 10 ∧ 24 ≤ addr_len then
    (((accum31 addr (min 16 (addr_len - 8))) <<< 16) % 2 ^ 64) ^^^ (port % 2 ^ 16)
  else 0

/-- Embedding of `lsm_bprm_check_security` of `lsm.bpf.c` (process-exec hook): entity rule,
then pid block; BLOCK and KILL both deny with `-EPERM` and emit, ALLOW emits. -/
def lsm_bprm_check_security (st : Store) (now pid start_time : Nat) : HookOut :=
  let entity_key := generate_entity_key pid start_time 0
  let r := check_blocking_rules st.blocking_rules now entity_key
  let action := if r.1 = ACTION_ALLOW then check_pid_blocked st.pid_blocking_map pid else r.1
  let st' := { st with blocking_rules := r.2 }
  if action = ACTION_BLOCK then
    ⟨-EPERM, st', [⟨now, pid, HOOK_BPRM_CHECK_SECURITY, ACTION_BLOCK, -EPERM, entity_key⟩]⟩
  else if action = ACTION_KILL then
    ⟨-EPERM, st', [⟨now, pid, HOOK_BPRM_CHECK_SECURITY, ACTION_KILL, -EPERM, entity_key⟩]⟩
  else
    ⟨0, st', [⟨now, pid, HOOK_BPRM_CHECK_SECURITY, ACTION_ALLOW, 0, entity_key⟩]⟩

/-- Embedding of `lsm_file_open` of `lsm.bpf.c`: entity rule, then pid block; only BLOCK
denies (`-EPERM`); every other resolved action returns 0 and emits ALLOW. -/
def lsm_file_open (st : Store) (now pid start_time : Nat) : HookOut :=
  let entity_key := generate_entity_key pid start_time 0
  let r := check_blocking_rules st.blocking_rules now entity_key
  let action := if r.1 = ACTION_ALLOW then check_pid_blocked st.pid_blocking_map pid else r.1
  let st' := { st with blocking_rules := r.2 }
  if action = ACTION_BLOCK then
    ⟨-EPERM, st', [⟨now, pid, HOOK_FILE_OPEN, ACTION_BLOCK, -EPERM, entity_key⟩]⟩
  else
    ⟨0, st', [⟨now, pid, HOOK_FILE_OPEN, ACTION_ALLOW, 0, entity_key⟩]⟩

/-- Embedding of `lsm_inode_permission` of `lsm.bpf.c`: entity rule, then pid block; BLOCK
denies with `-EACCES` and emits; the allow path emits nothing. -/
def lsm_inode_permission (st : Store) (now pid start_time : Nat) : HookOut :=
  let entity_key := generate_entity_key pid start_time 0
  let r := check_blocking_rules st.blocking_rules now entity_key
  let action := if r.1 = ACTION_ALLOW then check_pid_blocked st.pid_blocking_map pid else r.1
  let st' := { st with blocking_rules := r.2 }
  if action = ACTION_BLOCK then
    ⟨-EACCES, st', [⟨now, pid, HOOK_INODE_PERMISSION, ACTION_BLOCK, -EACCES, entity_key⟩]⟩
  else
    ⟨0, st', []⟩

/-- Embedding of `lsm_socket_connect` of `lsm.bpf.c`: compute the destination fingerprint,
recompute the entity key with the fingerprint as discriminant, then entity
rule, pid block, network block; BLOCK denies with `-ECONNREFUSED` and emits,
otherwise return 0 and emit ALLOW. -/
def lsm_socket_connect (st : Store) (now pid start_time : Nat)
    (family : Nat) (addr : Nat → Nat) (port addr_len : Nat) : HookOut :=
  let addr_hash := socket_addr_hash family addr port addr_len
  let entity_key := generate_entity_key pid start_time addr_hash
  let r := check_blocking_rules st.blocking_rules now entity_key
  let action := if r.1 = ACTION_ALLOW then check_pid_blocked st.pid_blocking_map pid else r.1
  let action := if action = ACTION_ALLOW then check_network_blocked st.network_blocking_map addr_hash else action
  let st' := { st with blocking_rules := r.2 }
  if action = ACTION_BLOCK then
    ⟨-ECONNREFUSED, st', [⟨now, pid, HOOK_SOCKET_CONNECT, ACTION_BLOCK, -ECONNREFUSED, entity_key⟩]⟩
  else
    ⟨0, st', [⟨now, pid, HOOK_SOCKET_CONNECT, ACTION_ALLOW, 0, entity_key⟩]⟩

/-- Embedding of `lsm_mmap_file` of `lsm.bpf.c`: if the requested protection lacks
`PROT_EXEC` (bit 0x4) return 0 before any store access; otherwise entity
rule, then pid block; BLOCK denies with `-EPERM` and emits, otherwise emit ALLOW. -/
def lsm_mmap_file (st : Store) (now pid start_time reqprot : Nat) : HookOut :=
  let entity_key := generate_entity_key pid start_time 0
  if reqprot &&& 0x4 = 0 then
    ⟨0, st, []⟩
  else
    let r := check_blocking_rules st.blocking_rules now entity_key
    let action := if r.1 = ACTION_ALLOW then check_pid_blocked st.pid_blocking_map pid else r.1
    let st' := { st with blocking_rules := r.2 }
    if action = ACTION_BLOCK then
      ⟨-EPERM, st', [⟨now, pid, HOOK_MMAP_FILE, ACTION_BLOCK, -EPERM, entity_key⟩]⟩
    else
      ⟨0, st', [⟨now, pid, HOOK_MMAP_FILE, ACTION_ALLOW, 0, entity_key⟩]⟩

/-- Embedding of `lsm_inode_unlink` of `lsm.bpf.c`: entity rule, then pid block; BLOCK
denies with `-EPERM` and emits; the allow path emits nothing. -/
def lsm_inode_unlink (st : Store) (now pid start_time : Nat) : HookOut :=
  let entity_key := generate_entity_key pid start_time 0
  let r := check_blocking_rules st.blocking_rules now entity_key
  let action := if r.1 = ACTION_ALLOW then check_pid_blocked st.pid_blocking_map pid else r.1
  let st' := { st with blocking_rules := r.2 }
  if action = ACTION_BLOCK then
    ⟨-EPERM, st', [⟨now, pid, HOOK_INODE_UNLINK, ACTION_BLOCK, -EPERM, entity_key⟩]⟩
  else
    ⟨0, st', []⟩

/-- Embedding of `lsm_bpf` of `lsm.bpf.c` (privileged-syscall hook): entity key with the
bpf command number as discriminant, entity rule, then pid block; BLOCK
denies with `-EPERM` and emits; the allow path emits nothing. -/
def lsm_bpf (st : Store) (now pid start_time cmd : Nat) : HookOut :=
  let entity_key := generate_entity_key pid start_time cmd
  let r := check_blocking_rules st.blocking_rules now entity_key
  let action := if r.1 = ACTION_ALLOW then check_pid_blocked st.pid_blocking_map pid else r.1
  let st' := { st with blocking_rules := r.2 }
  if action = ACTION_BLOCK then
    ⟨-EPERM, st', [⟨now, pid, HOOK_BPF, ACTION_BLOCK, -EPERM, entity_key⟩]⟩
  else
    ⟨0, st', []⟩

/-- Embedding of `lsm_perf_event_open` of `lsm.bpf.c` (introspection-syscall hook): entity
key with the target pid as discriminant, entity rule, then pid block on the
current pid; BLOCK denies with `-EPERM` and emits; the allow path emits nothing. -/
def lsm_perf_event_open (st : Store) (now current_pid start_time target_pid : Nat) : HookOut :=
  let entity_key := generate_entity_key current_pid start_time target_pid
  let r := check_blocking_rules st.blocking_rules now entity_key
  let action := if r.1 = ACTION_ALLOW then check_pid_blocked st.pid_blocking_map current_pid else r.1
  let st' := { st with blocking_rules := r.2 }
  if action = ACTION_BLOCK then
    ⟨-EPERM, st', [⟨now, current_pid, HOOK_PERF_EVENT_OPEN, ACTION_BLOCK, -EPERM, entity_key⟩]⟩
  else
    ⟨0, st', []⟩

/-- Modelled from the spec: the `enforcement_events` BPF ring buffer of
`lsm.bpf.c` is kernel infrastructure whose reserve/submit implementation is
not in this repository; per the spec it is a bounded channel with a fixed
preallocated slot pool in which a reserve attempt fails exactly when the
channel is full, and a failed reserve surfaces no error. -/
structure RingBuf where
  capacity : Nat
  buf : List EnforcementEvent

/-- Embedding of `send_enforcement_event` of `lsm.bpf.c` at the channel level: reserve a
slot; if none is available return with the channel unchanged (the event is
dropped and no error is surfaced); otherwise fill the slot and submit it. -/
def send_enforcement_event (rb : RingBuf) (e : EnforcementEvent) : RingBuf :=
  if rb.buf.length < rb.capacity then { rb with buf := rb.buf ++ [e] } else rb

/-- Emit a sequence of events one after the other. -/
def send_all (rb : RingBuf) : List EnforcementEvent → RingBuf
  | [] => rb
  | e :: es => send_all (send_enforcement_event rb e) es

/-- The command-line-argument capture loop of `handle_execve` in
`main.bpf.c` (lines 290-308).  `argp i` models reading `args_p[i]`:
`none` is a null argument pointer (`!arg` → break); `some none` is an
unreadable argument string (`bpf_probe_read_user_str` returns `<= 0` →
break); `some (some slen)` is a readable string of `slen` bytes, for which
`bpf_probe_read_user_str` with buffer space `512 - args_len` copies
`min (slen + 1) (512 - args_len)` bytes (NUL included) and returns that
length.  Arguments: remaining fuel (starts at 32), loop index `i`,
accumulated `args_len`; result: (number of loop-body entries, final
`args_len`). -/
def capture_go (argp : Nat → Option (Option Nat)) : Nat → Nat → Nat → Nat × Nat
  | 0, i, args_len => (i, args_len)
  | fuel + 1, i, args_len =>
    match argp i with
    | none => (i + 1, args_len)
    | some marg =>
      if 511 ≤ args_len then (i + 1, args_len)
      else
        match marg with
        | none => (i + 1, args_len)
        | some slen => capture_go argp fuel (i + 1) (args_len + min (slen + 1) (512 - args_len))

/-- The full argument-capture loop: at most 32 iterations starting from an
empty 512-byte buffer. -/
def capture_args (argp : Nat → Option (Option Nat)) : Nat × Nat :=
  capture_go argp 32 0 0

/-! ### Shared helper lemmas -/

/-- On sane inputs (timestamp not in the future, both below `2^64`) the
wrapping `u64` subtraction agrees with truncated subtraction on `Nat`. -/
theorem u64_sub_eq_of_le (a b : Nat) (hb : b ≤ a) (ha : a < 2 ^ 64) :
    u64_sub a b = a - b := by
  unfold u64_sub
  omega

/-- The C cast `(int)x` is the identity on values below `2^31`. -/
theorem u64_to_int32_of_lt (n : Nat) (h : n < 2 ^ 31) : u64_to_int32 n = n := by
  unfold u64_to_int32
  rw [Nat.mod_eq_of_lt (by omega), if_pos h]

/-- The empty decision store. -/
def emptyStore : Store :=
  ⟨fun _ => none, fun _ => none, fun _ => none, fun _ => none⟩

/-! ### Claim C3 — entity-key distinctness -/

/-- Claim C3 counterexample: the entity key uses only the high 32 bits of
`start_time`, so the distinct start times 0 and 1 yield the same key for
pid 1 — refuting the claim that any two inputs with differing start_time
give distinct keys. -/
theorem c3_counterexample :
    generate_entity_key 1 0 0 = generate_entity_key 1 1 0 ∧ (0 : Nat) ≠ 1 := by
  constructor
  · rfl
  · decide

/-- Claim C3 (amended): `entity_key(pid, start_time, 0)` values are distinct
whenever the high 32 bits of the two start times differ; start times that
agree on their high 32 bits collide. -/
theorem c3_high_bits_inject (pid st1 st2 : Nat)
    (h : (st1 % 2 ^ 64) >>> 32 ≠ (st2 % 2 ^ 64) >>> 32) :
    generate_entity_key pid st1 0 ≠ generate_entity_key pid st2 0 := by
  unfold generate_entity_key
  simp only [Nat.zero_mod, Nat.xor_zero]
  intro heq
  apply h
  have h2 := congrArg (fun x => ((pid % 2 ^ 32) <<< 32) ^^^ x) heq
  simpa [← Nat.xor_assoc, Nat.xor_self, Nat.zero_xor] using h2

/-- Witness for the amended claim C3 at pid 1, start times 0 and `2^32`. -/
theorem c3_high_bits_inject_witness :
    generate_entity_key 1 0 0 ≠ generate_entity_key 1 (2 ^ 32) 0 :=
  c3_high_bits_inject 1 0 (2 ^ 32) (by decide)

/-! ### Claim C6 — rule expiry semantics -/

/-- Claim C6: a rule with `ttl_ns = 0` never expires and resolves to its
action at every later time; a rule with positive ttl resolves to its action
while `now - timestamp_ns ≤ ttl_ns`, and once `now - timestamp_ns > ttl_ns`
the lookup returns `ACTION_ALLOW` and deletes the entry as a side effect. -/
theorem c6_rule_expiry (rules : RulesMap) (now k : Nat) (r : BlockingRule)
    (hr : rules k = some r) (hact : r.action < 2 ^ 31)
    (hnow : now < 2 ^ 64) (hts : r.timestamp_ns ≤ now) :
    (r.ttl_ns = 0 → check_blocking_rules rules now k = ((r.action : Int), rules)) ∧
    (0 < r.ttl_ns → now - r.timestamp_ns ≤ r.ttl_ns →
      check_blocking_rules rules now k = ((r.action : Int), rules)) ∧
    (0 < r.ttl_ns → r.ttl_ns < now - r.timestamp_ns →
      check_blocking_rules rules now k =
        (ACTION_ALLOW, fun q => if q = k then none else rules q)) := by
  have hsub : u64_sub now r.timestamp_ns = now - r.timestamp_ns :=
    u64_sub_eq_of_le now r.timestamp_ns hts hnow
  have hcast : u64_to_int32 r.action = r.action := u64_to_int32_of_lt r.action hact
  refine ⟨?_, ?_, ?_⟩
  · intro h0
    simp only [check_blocking_rules, hr]
    rw [if_neg (by omega), hcast]
  · intro hpos hle
    simp only [check_blocking_rules, hr]
    rw [if_pos hpos, hsub, if_neg (by omega), hcast]
  · intro hpos hgt
    simp only [check_blocking_rules, hr]
    rw [if_pos hpos, hsub, if_pos hgt]

/-- A concrete one-rule map for exercising expiry: key 7, action 2 (KILL),
ttl 5 ns, created at 10 ns. -/
def c6rules : RulesMap :=
  fun k => if k = 7 then some ⟨7, 2, 5, 10, 0⟩ else none

/-- Witness for claim C6: at time 20 the rule (age 10 > ttl 5) resolves to
ALLOW and is deleted. -/
theorem c6_rule_expiry_witness :
    check_blocking_rules c6rules 20 7 =
      (ACTION_ALLOW, fun q => if q = 7 then none else c6rules q) := by
  have h := c6_rule_expiry c6rules 20 7 ⟨7, 2, 5, 10, 0⟩ rfl (by decide) (by decide) (by decide)
  exact h.2.2 (by decide) (by decide)

/-! ### Claim C8 — IPv4 fingerprint -/

/-- The four-byte accumulation unfolded to its closed form. -/
theorem accum31_four (addr : Nat → Nat) :
    accum31 addr 4 =
      (((addr 0 % 256) * 31 + addr 1 % 256) * 31 + addr 2 % 256) * 31 + addr 3 % 256 := by
  have ha0 : addr 0 % 256 < 256 := Nat.mod_lt _ (by norm_num)
  have ha1 : addr 1 % 256 < 256 := Nat.mod_lt _ (by norm_num)
  have ha2 : addr 2 % 256 < 256 := Nat.mod_lt _ (by norm_num)
  have ha3 : addr 3 % 256 < 256 := Nat.mod_lt _ (by norm_num)
  show (((((accum31 addr 0) * 31 + addr 0 % 256) % 2 ^ 64 * 31 + addr 1 % 256) % 2 ^ 64 * 31
      + addr 2 % 256) % 2 ^ 64 * 31 + addr 3 % 256) % 2 ^ 64 = _
  have e0 : accum31 addr 0 = 0 := rfl
  rw [e0]
  omega

/-- Claim C8: the IPv4 fingerprint is the stated deterministic function of
the address bytes and port — a rolling multiply-by-31 accumulation over the
four address bytes, shifted left 16 and XORed with the port — and the
fingerprints of 192.168.1.1:443 and 192.168.1.2:443 differ. -/
theorem c8_ipv4_fingerprint (b0 b1 b2 b3 port : Nat)
    (h0 : b0 < 256) (h1 : b1 < 256) (h2 : b2 < 256) (h3 : b3 < 256)
    (hp : port < 2 ^ 16) :
    socket_addr_hash 2 (fun i => [b0, b1, b2, b3].getD i 0) port 16 =
      ((((b0 * 31 + b1) * 31 + b2) * 31 + b3) <<< 16) ^^^ port ∧
    socket_addr_hash 2 (fun i => [192, 168, 1, 1].getD i 0) 443 16 ≠
      socket_addr_hash 2 (fun i => [192, 168, 1, 2].getD i 0) 443 16 := by
  constructor
  · simp only [socket_addr_hash, if_pos (by norm_num : (2 : Nat) = 2 ∧ 8 ≤ 16)]
    rw [show min 4 (16 - 4) = 4 from rfl, accum31_four]
    simp only [List.getD_cons_zero, List.getD_cons_succ]
    rw [Nat.mod_eq_of_lt h0, Nat.mod_eq_of_lt h1, Nat.mod_eq_of_lt h2, Nat.mod_eq_of_lt h3,
      Nat.mod_eq_of_lt hp, Nat.shiftLeft_eq, Nat.mod_eq_of_lt (by omega), ← Nat.shiftLeft_eq]
    norm_num
  · decide

/-- Witness for claim C8 at 192.168.1.1:443. -/
theorem c8_ipv4_fingerprint_witness :
    socket_addr_hash 2 (fun i => [192, 168, 1, 1].getD i 0) 443 16 =
      ((((192 * 31 + 168) * 31 + 1) * 31 + 1) <<< 16) ^^^ 443 ∧
    socket_addr_hash 2 (fun i => [192, 168, 1, 1].getD i 0) 443 16 ≠
      socket_addr_hash 2 (fun i => [192, 168, 1, 2].getD i 0) 443 16 :=
  c8_ipv4_fingerprint 192 168 1 1 443 (by decide) (by decide) (by decide) (by decide) (by decide)

/-! ### Further helper lemmas for the hook handlers -/

/-- A found, unexpired rule makes `check_blocking_rules` return its
(cast) action and leave the rule map untouched. -/
theorem check_blocking_rules_found (rules : RulesMap) (now k : Nat) (r : BlockingRule)
    (hr : rules k = some r)
    (hfresh : r.ttl_ns = 0 ∨ ¬ r.ttl_ns < u64_sub now r.timestamp_ns) :
    check_blocking_rules rules now k = (u64_to_int32 r.action, rules) := by
  simp only [check_blocking_rules, hr]
  rcases hfresh with h0 | hne
  · rw [if_neg (by omega)]
  · by_cases hpos : 0 < r.ttl_ns
    · rw [if_pos hpos, if_neg hne]
    · rw [if_neg hpos]

/-- An absent rule makes `check_blocking_rules` return `ACTION_ALLOW`. -/
theorem check_blocking_rules_none (rules : RulesMap) (now k : Nat)
    (hr : rules k = none) :
    check_blocking_rules rules now k = (ACTION_ALLOW, rules) := by
  simp only [check_blocking_rules, hr]

/-! ### Claim C1 — precedence of an explicit ALLOW entity rule -/

/-- A store holding an unexpired ALLOW rule for the entity key of pid 5
(start time 0) and a process-block flag for pid 5. -/
def stC1 : Store :=
  { emptyStore with
    blocking_rules := fun k =>
      if k = generate_entity_key 5 0 0 then some ⟨generate_entity_key 5 0 0, 0, 0, 0, 1⟩ else none
    pid_blocking_map := fun p => if p = 5 then some 1 else none }

/-- Claim C1 counterexample: with an unexpired ALLOW entity rule and a
process-block flag for the same pid, the file-open hook denies with
`-EPERM` — the process-block table is consulted and wins, so resolution
does not return ALLOW as the claim states. -/
theorem c1_counterexample :
    stC1.blocking_rules (generate_entity_key 5 0 0) =
      some ⟨generate_entity_key 5 0 0, 0, 0, 0, 1⟩ ∧
    stC1.pid_blocking_map 5 = some 1 ∧
    (lsm_file_open stC1 0 5 0).ret = -EPERM := by
  refine ⟨by decide, by decide, by decide⟩

/-- Claim C1 (amended): an unexpired entity rule with action ALLOW does not
short-circuit resolution; the process-block table is consulted after it, so
when the same pid is flagged there the hook denies with `-EPERM` and emits a
BLOCK audit record. -/
theorem c1_allow_rule_not_final (st : Store) (now pid start_time : Nat) (r : BlockingRule)
    (hr : st.blocking_rules (generate_entity_key pid start_time 0) = some r)
    (hact : r.action = 0)
    (hfresh : r.ttl_ns = 0 ∨ ¬ r.ttl_ns < u64_sub now r.timestamp_ns)
    (hpid : st.pid_blocking_map pid = some 1) :
    (lsm_file_open st now pid start_time).ret = -EPERM ∧
    (lsm_file_open st now pid start_time).emits =
      [⟨now, pid, HOOK_FILE_OPEN, ACTION_BLOCK, -EPERM, generate_entity_key pid start_time 0⟩] := by
  have hc := check_blocking_rules_found st.blocking_rules now _ r hr hfresh
  have hcast : u64_to_int32 r.action = ACTION_ALLOW := by rw [hact]; decide
  simp only [lsm_file_open, hc, hcast, check_pid_blocked, hpid]
  norm_num [ACTION_ALLOW, ACTION_BLOCK]

/-- Witness for the amended claim C1 on the concrete store `stC1`. -/
theorem c1_allow_rule_not_final_witness :
    (lsm_file_open stC1 0 5 0).ret = -EPERM ∧
    (lsm_file_open stC1 0 5 0).emits =
      [⟨0, 5, HOOK_FILE_OPEN, ACTION_BLOCK, -EPERM, generate_entity_key 5 0 0⟩] :=
  c1_allow_rule_not_final stC1 0 5 0 ⟨generate_entity_key 5 0 0, 0, 0, 0, 1⟩
    (by decide) rfl (Or.inl rfl) (by decide)

/-! ### Claim C2 — zero network fingerprint -/

/-- A store whose network-block table flags hash 0. -/
def stC2 : Store :=
  { emptyStore with network_blocking_map := fun h => if h = 0 then some 1 else none }

/-- Claim C2 counterexample: for an unsupported address family the computed
fingerprint is 0, yet the network-block table is still consulted, and an
entry stored under key 0 denies the connection with `-ECONNREFUSED`. -/
theorem c2_counterexample :
    socket_addr_hash 0 (fun _ => 0) 0 0 = 0 ∧
    stC2.network_blocking_map 0 = some 1 ∧
    (lsm_socket_connect stC2 0 5 0 0 (fun _ => 0) 0 0).ret = -ECONNREFUSED := by
  refine ⟨rfl, by decide, by decide⟩

/-- Claim C2 (amended): a zero fingerprint does not skip the network-block
table; whenever the fingerprint is zero (unsupported family or short
buffer), no entity rule exists for the derived key, and the pid is not
flagged, a network-block entry stored under key 0 with value 1 denies the
connection. -/
theorem c2_zero_fingerprint_consults_table (st : Store)
    (now pid start_time family port addr_len : Nat) (addr : Nat → Nat)
    (hfam4 : ¬ (family = 2 ∧ 8 ≤ addr_len)) (hfam6 : ¬ (family = 10 ∧ 24 ≤ addr_len))
    (hrule : st.blocking_rules (generate_entity_key pid start_time 0) = none)
    (hpid : st.pid_blocking_map pid = none)
    (hnet : st.network_blocking_map 0 = some 1) :
    (lsm_socket_connect st now pid start_time family addr port addr_len).ret =
      -ECONNREFUSED := by
  have hhash : socket_addr_hash family addr port addr_len = 0 := by
    simp only [socket_addr_hash]
    rw [if_neg hfam4, if_neg hfam6]
  have hc := check_blocking_rules_none st.blocking_rules now _ hrule
  simp only [lsm_socket_connect, hhash, hc, check_pid_blocked, hpid,
    check_network_blocked, hnet]
  norm_num [ACTION_ALLOW, ACTION_BLOCK]

/-- Witness for the amended claim C2 on the concrete store `stC2`. -/
theorem c2_zero_fingerprint_consults_table_witness :
    (lsm_socket_connect stC2 0 5 0 0 (fun _ => 0) 0 0).ret = -ECONNREFUSED :=
  c2_zero_fingerprint_consults_table stC2 0 5 0 0 0 0 (fun _ => 0)
    (by decide) (by decide) (by decide) (by decide) (by decide)

/-! ### Claim C4 — KILL rules on non-exec hooks fall through to allow -/

/-- Claim C4: on every hook other than process-exec, an unexpired entity
rule with action KILL makes the handler return 0 (operation allowed): the
KILL action is neither BLOCK nor ALLOW, so the process-block table is never
consulted (its contents are unconstrained here and the pid-map-invariance
conjunct makes that explicit), and the hooks that emit on their allow path
emit a record carrying action ALLOW. -/
theorem c4_kill_rule_allows (st : Store) (now pid start_time reqprot : Nat) (r : BlockingRule)
    (hr : st.blocking_rules (generate_entity_key pid start_time 0) = some r)
    (hact : r.action = 2)
    (hfresh : r.ttl_ns = 0 ∨ ¬ r.ttl_ns < u64_sub now r.timestamp_ns)
    (hexec : ¬ reqprot &&& 0x4 = 0) :
    ((lsm_file_open st now pid start_time).ret = 0 ∧
      (lsm_file_open st now pid start_time).emits =
        [⟨now, pid, HOOK_FILE_OPEN, ACTION_ALLOW, 0, generate_entity_key pid start_time 0⟩]) ∧
    ((lsm_inode_permission st now pid start_time).ret = 0 ∧
      (lsm_inode_permission st now pid start_time).emits = []) ∧
    ((lsm_socket_connect st now pid start_time 0 (fun _ => 0) 0 0).ret = 0 ∧
      (lsm_socket_connect st now pid start_time 0 (fun _ => 0) 0 0).emits =
        [⟨now, pid, HOOK_SOCKET_CONNECT, ACTION_ALLOW, 0, generate_entity_key pid start_time 0⟩]) ∧
    ((lsm_mmap_file st now pid start_time reqprot).ret = 0 ∧
      (lsm_mmap_file st now pid start_time reqprot).emits =
        [⟨now, pid, HOOK_MMAP_FILE, ACTION_ALLOW, 0, generate_entity_key pid start_time 0⟩]) ∧
    ((lsm_inode_unlink st now pid start_time).ret = 0 ∧
      (lsm_inode_unlink st now pid start_time).emits = []) ∧
    ((lsm_bpf st now pid start_time 0).ret = 0 ∧
      (lsm_bpf st now pid start_time 0).emits = []) ∧
    ((lsm_perf_event_open st now pid start_time 0).ret = 0 ∧
      (lsm_perf_event_open st now pid start_time 0).emits = []) ∧
    (∀ pm, (lsm_file_open { st with pid_blocking_map := pm } now pid start_time).ret = 0) := by
  have hc := check_blocking_rules_found st.blocking_rules now _ r hr hfresh
  have hcast : u64_to_int32 r.action = ACTION_KILL := by rw [hact]; decide
  have hhash : socket_addr_hash 0 (fun _ => 0) 0 0 = 0 := rfl
  have hz : (0 : Nat) % 2 ^ 64 = 0 := rfl
  refine ⟨?_, ?_, ?_, ?_, ?_, ?_, ?_, ?_⟩
  · simp only [lsm_file_open, hc, hcast]
    norm_num [ACTION_ALLOW, ACTION_BLOCK, ACTION_KILL]
  · simp only [lsm_inode_permission, hc, hcast]
    norm_num [ACTION_ALLOW, ACTION_BLOCK, ACTION_KILL]
  · simp only [lsm_socket_connect, hhash, hc, hcast]
    norm_num [ACTION_ALLOW, ACTION_BLOCK, ACTION_KILL]
  · simp only [lsm_mmap_file, hc, hcast]
    rw [if_neg hexec]
    norm_num [ACTION_ALLOW, ACTION_BLOCK, ACTION_KILL]
  · simp only [lsm_inode_unlink, hc, hcast]
    norm_num [ACTION_ALLOW, ACTION_BLOCK, ACTION_KILL]
  · simp only [lsm_bpf, hz, hc, hcast]
    norm_num [ACTION_ALLOW, ACTION_BLOCK, ACTION_KILL]
  · simp only [lsm_perf_event_open, hz, hc, hcast]
    norm_num [ACTION_ALLOW, ACTION_BLOCK, ACTION_KILL]
  · intro pm
    simp only [lsm_file_open, hc, hcast]
    norm_num [ACTION_ALLOW, ACTION_BLOCK, ACTION_KILL]

/-- A store holding an unexpired KILL rule for the entity key of pid 5
(start time 0) and a process-block flag for pid 5. -/
def stC4 : Store :=
  { emptyStore with
    blocking_rules := fun k =>
      if k = generate_entity_key 5 0 0 then some ⟨generate_entity_key 5 0 0, 2, 0, 0, 0⟩ else none
    pid_blocking_map := fun p => if p = 5 then some 1 else none }

/-- Witness for claim C4 on `stC4` (the pid is even flagged in the
process-block table, yet the KILL rule makes the hooks return 0). -/
theorem c4_kill_rule_allows_witness :
    (lsm_file_open stC4 0 5 0).ret = 0 ∧
    (lsm_inode_unlink stC4 0 5 0).ret = 0 ∧
    (lsm_perf_event_open stC4 0 5 0 0).emits = [] := by
  have h := c4_kill_rule_allows stC4 0 5 0 4 ⟨generate_entity_key 5 0 0, 2, 0, 0, 0⟩
    (by decide) rfl (Or.inl rfl) (by decide)
  exact ⟨h.1.1, h.2.2.2.2.1.1, h.2.2.2.2.2.2.1.2⟩

/-! ### Claim C5 — audit emission on the allow path -/

/-- Claim C5 counterexample: on an empty store (so the decision store is
consulted and resolves ALLOW) the unlink, bpf and perf_event_open hooks
return 0 and emit no audit record at all, refuting the claim that they
emit on their ALLOW path. -/
theorem c5_counterexample :
    (lsm_inode_unlink emptyStore 0 5 0).ret = 0 ∧
    (lsm_inode_unlink emptyStore 0 5 0).emits = [] ∧
    (lsm_bpf emptyStore 0 5 0 0).emits = [] ∧
    (lsm_perf_event_open emptyStore 0 5 0 0).emits = [] := by
  refine ⟨by decide, by decide, by decide, by decide⟩

/-- Claim C5 (amended): denials are escorted by an audit emission on every
hook — whenever a handler returns nonzero its emission list is nonempty and
labelled BLOCK (KILL on the process-exec hook) — and the ALLOW path emits
only on the process-exec, file-open, socket-connect and mmap-exec hooks
(where the record is labelled ALLOW); the inode-permission, unlink, bpf and
perf_event_open hooks emit nothing when they allow, emitting exactly when
they deny with `-EPERM`/`-EACCES`. -/
theorem c5_emission_policy (st : Store)
    (now pid start_time reqprot cmd tpid family port addr_len : Nat) (addr : Nat → Nat) :
    ((lsm_bprm_check_security st now pid start_time).emits ≠ [] ∧
      ((lsm_bprm_check_security st now pid start_time).ret = 0 →
        (lsm_bprm_check_security st now pid start_time).emits.map (fun e => e.action) =
          [ACTION_ALLOW])) ∧
    ((lsm_file_open st now pid start_time).emits ≠ [] ∧
      ((lsm_file_open st now pid start_time).ret = 0 →
        (lsm_file_open st now pid start_time).emits.map (fun e => e.action) = [ACTION_ALLOW]) ∧
      ((lsm_file_open st now pid start_time).ret ≠ 0 →
        (lsm_file_open st now pid start_time).emits.map (fun e => e.action) = [ACTION_BLOCK])) ∧
    ((lsm_socket_connect st now pid start_time family addr port addr_len).emits ≠ [] ∧
      ((lsm_socket_connect st now pid start_time family addr port addr_len).ret = 0 →
        (lsm_socket_connect st now pid start_time family addr port addr_len).emits.map
          (fun e => e.action) = [ACTION_ALLOW]) ∧
      ((lsm_socket_connect st now pid start_time family addr port addr_len).ret ≠ 0 →
        (lsm_socket_connect st now pid start_time family addr port addr_len).emits.map
          (fun e => e.action) = [ACTION_BLOCK])) ∧
    (¬ reqprot &&& 0x4 = 0 →
      (lsm_mmap_file st now pid start_time reqprot).emits ≠ [] ∧
      ((lsm_mmap_file st now pid start_time reqprot).ret = 0 →
        (lsm_mmap_file st now pid start_time reqprot).emits.map (fun e => e.action) =
          [ACTION_ALLOW]) ∧
      ((lsm_mmap_file st now pid start_time reqprot).ret ≠ 0 →
        (lsm_mmap_file st now pid start_time reqprot).emits.map (fun e => e.action) =
          [ACTION_BLOCK])) ∧
    (((lsm_inode_permission st now pid start_time).ret = 0 →
        (lsm_inode_permission st now pid start_time).emits = []) ∧
      ((lsm_inode_permission st now pid start_time).ret ≠ 0 →
        (lsm_inode_permission st now pid start_time).ret = -EACCES ∧
        (lsm_inode_permission st now pid start_time).emits.map (fun e => e.action) =
          [ACTION_BLOCK])) ∧
    (((lsm_inode_unlink st now pid start_time).ret = 0 →
        (lsm_inode_unlink st now pid start_time).emits = []) ∧
      ((lsm_inode_unlink st now pid start_time).ret ≠ 0 →
        (lsm_inode_unlink st now pid start_time).ret = -EPERM ∧
        (lsm_inode_unlink st now pid start_time).emits.map (fun e => e.action) =
          [ACTION_BLOCK])) ∧
    (((lsm_bpf st now pid start_time cmd).ret = 0 →
        (lsm_bpf st now pid start_time cmd).emits = []) ∧
      ((lsm_bpf st now pid start_time cmd).ret ≠ 0 →
        (lsm_bpf st now pid start_time cmd).ret = -EPERM ∧
        (lsm_bpf st now pid start_time cmd).emits.map (fun e => e.action) = [ACTION_BLOCK])) ∧
    (((lsm_perf_event_open st now pid start_time tpid).ret = 0 →
        (lsm_perf_event_open st now pid start_time tpid).emits = []) ∧
      ((lsm_perf_event_open st now pid start_time tpid).ret ≠ 0 →
        (lsm_perf_event_open st now pid start_time tpid).ret = -EPERM ∧
        (lsm_perf_event_open st now pid start_time tpid).emits.map (fun e => e.action) =
          [ACTION_BLOCK])) := by
  refine ⟨?_, ?_, ?_, ?_, ?_, ?_, ?_, ?_⟩
  · simp only [lsm_bprm_check_security]
    split <;> (try split) <;> (try split) <;>
      simp [ACTION_ALLOW, ACTION_BLOCK, ACTION_KILL, EPERM]
  · simp only [lsm_file_open]
    split <;> (try split) <;>
      simp [ACTION_ALLOW, ACTION_BLOCK, EPERM]
  · simp only [lsm_socket_connect]
    split <;> (try split) <;> (try split) <;>
      simp [ACTION_ALLOW, ACTION_BLOCK, ECONNREFUSED]
  · intro hexec
    simp only [lsm_mmap_file]
    rw [if_neg hexec]
    split <;> (try split) <;>
      simp [ACTION_ALLOW, ACTION_BLOCK, EPERM]
  · simp only [lsm_inode_permission]
    split <;> (try split) <;>
      simp [ACTION_ALLOW, ACTION_BLOCK, EACCES]
  · simp only [lsm_inode_unlink]
    split <;> (try split) <;>
      simp [ACTION_ALLOW, ACTION_BLOCK, EPERM]
  · simp only [lsm_bpf]
    split <;> (try split) <;>
      simp [ACTION_ALLOW, ACTION_BLOCK, EPERM]
  · simp only [lsm_perf_event_open]
    split <;> (try split) <;>
      simp [ACTION_ALLOW, ACTION_BLOCK, EPERM]

/-- Witness for the amended claim C5 on the empty store: the process-exec
and file-open hooks emit an ALLOW record on their allow path, the mmap hook
with the exec bit set emits, and the unlink hook emits nothing. -/
theorem c5_emission_policy_witness :
    (lsm_bprm_check_security emptyStore 0 5 0).emits.map (fun e => e.action) = [ACTION_ALLOW] ∧
    (lsm_file_open emptyStore 0 5 0).emits.map (fun e => e.action) = [ACTION_ALLOW] ∧
    (lsm_mmap_file emptyStore 0 5 0 4).emits ≠ [] ∧
    (lsm_inode_unlink emptyStore 0 5 0).emits = [] := by
  have h := c5_emission_policy emptyStore 0 5 0 4 0 0 0 0 0 (fun _ => 0)
  exact ⟨h.1.2 (by decide), h.2.1.2.1 (by decide), (h.2.2.2.1 (by decide)).1,
    h.2.2.2.2.2.1.1 (by decide)⟩

/-! ### Claim C9 — mmap without exec is a no-op on the store -/

/-- Claim C9: when the requested protection lacks the execute bit, the
memory-map hook returns 0 with the store identically unchanged (no rule
lookup, no pid lookup, no expiry deletion) and emits nothing. -/
theorem c9_mmap_no_exec_frame (st : Store) (now pid start_time reqprot : Nat)
    (h : reqprot &&& 0x4 = 0) :
    lsm_mmap_file st now pid start_time reqprot = ⟨0, st, []⟩ := by
  simp only [lsm_mmap_file]
  rw [if_pos h]

/-- Witness for claim C9 at `reqprot = 3` (read|write, no exec). -/
theorem c9_mmap_no_exec_frame_witness :
    lsm_mmap_file emptyStore 0 5 0 3 = ⟨0, emptyStore, []⟩ ∧ 3 &&& 0x4 = 0 :=
  ⟨c9_mmap_no_exec_frame emptyStore 0 5 0 3 (by decide), by decide⟩

/-! ### Claim C7 — emission under channel saturation -/

/-- Emitting a list of events stores them until the slot pool is exhausted:
the stored count is the minimum of the capacity and the offered count. -/
theorem send_all_buf_length (es : List EnforcementEvent) (rb : RingBuf)
    (h : rb.buf.length ≤ rb.capacity) :
    (send_all rb es).buf.length = min rb.capacity (rb.buf.length + es.length) := by
  induction es generalizing rb with
  | nil =>
    simp only [send_all, List.length_nil]
    omega
  | cons e es ih =>
    simp only [send_all, send_enforcement_event, List.length_cons]
    by_cases hlt : rb.buf.length < rb.capacity
    · rw [if_pos hlt, ih _ (by simp; omega)]
      simp
      omega
    · rw [if_neg hlt, ih _ h]
      omega

/-- Claim C7: emission is total and best-effort — emitting `N + 1` events
into a channel sized `N` stores `N` of them and drops exactly one, and an
emission against a full channel returns with the channel unchanged and no
error surfaced. -/
theorem c7_emit_saturation (N : Nat) (es : List EnforcementEvent)
    (hlen : es.length = N + 1) :
    (send_all ⟨N, []⟩ es).buf.length = N ∧
    es.length - (send_all ⟨N, []⟩ es).buf.length = 1 ∧
    (∀ rb e, rb.buf.length = rb.capacity → send_enforcement_event rb e = rb) := by
  have h := send_all_buf_length es ⟨N, []⟩ (by simp)
  simp only [List.length_nil, Nat.zero_add] at h
  refine ⟨?_, ?_, ?_⟩
  · rw [h, hlen]
    omega
  · rw [h, hlen]
    omega
  · intro rb e hfull
    simp [send_enforcement_event, hfull]

/-- A throwaway event for exercising the channel. -/
def evC7 : EnforcementEvent := ⟨0, 0, 0, 0, 0, 0⟩

/-- Witness for claim C7: two events into a channel of capacity one store
one event and drop one. -/
theorem c7_emit_saturation_witness :
    (send_all ⟨1, []⟩ [evC7, evC7]).buf.length = 1 ∧
    [evC7, evC7].length - (send_all ⟨1, []⟩ [evC7, evC7]).buf.length = 1 := by
  have h := c7_emit_saturation 1 [evC7, evC7] (by decide)
  exact ⟨h.1, h.2.1⟩

/-! ### Claim C10 — bounded argument capture -/

/-- The capture loop performs at most `fuel` further iterations. -/
theorem capture_go_iter_le (argp : Nat → Option (Option Nat)) (fuel i len : Nat) :
    (capture_go argp fuel i len).1 ≤ i + fuel := by
  induction fuel generalizing i len with
  | zero => simp [capture_go]
  | succ fuel ih =>
    cases ha : argp i with
    | none =>
      simp [capture_go, ha]
    | some marg =>
      by_cases hl : 511 ≤ len
      · simp [capture_go, ha, hl]
      · cases marg with
        | none =>
          simp [capture_go, ha, hl]
        | some slen =>
          simp only [capture_go, ha]
          rw [if_neg hl]
          have h2 := ih (i + 1) (len + min (slen + 1) (512 - len))
          omega

/-- The accumulated argument length never exceeds the 512-byte buffer. -/
theorem capture_go_len_le (argp : Nat → Option (Option Nat)) (fuel i len : Nat)
    (h : len ≤ 512) :
    (capture_go argp fuel i len).2 ≤ 512 := by
  induction fuel generalizing i len with
  | zero => simpa [capture_go]
  | succ fuel ih =>
    cases ha : argp i with
    | none => simpa [capture_go, ha]
    | some marg =>
      by_cases hl : 511 ≤ len
      · simpa [capture_go, ha, hl]
      · cases marg with
        | none => simpa [capture_go, ha, hl]
        | some slen =>
          simp only [capture_go, ha]
          rw [if_neg hl]
          exact ih (i + 1) _ (by omega)

/-- The capture loop stops no later than one body entry past the first
null or unreadable argument pointer. -/
theorem capture_go_stops_at_none (argp : Nat → Option (Option Nat))
    (fuel i len j : Nat) (hj : argp j = none) (hij : i ≤ j) :
    (capture_go argp fuel i len).1 ≤ j + 1 := by
  induction fuel generalizing i len with
  | zero =>
    simp [capture_go]
    omega
  | succ fuel ih =>
    cases ha : argp i with
    | none =>
      simp [capture_go, ha]
      omega
    | some marg =>
      have hij2 : i < j := by
        rcases Nat.eq_or_lt_of_le hij with he | hlt
        · subst he
          rw [hj] at ha
          simp at ha
        · exact hlt
      by_cases hl : 511 ≤ len
      · simp [capture_go, ha, hl]
        omega
      · cases marg with
        | none =>
          simp [capture_go, ha, hl]
          omega
        | some slen =>
          simp only [capture_go, ha]
          rw [if_neg hl]
          exact ih (i + 1) _ (by omega)

/-- Claim C10: the execve argument-capture loop iterates at most 32 times,
never accumulates more than the 512-byte buffer, and stops early at the
first null or unreadable argument pointer. -/
theorem c10_capture_args_bounded :
    ∀ argp : Nat → Option (Option Nat),
      ((capture_args argp).1 ≤ 32 ∧ (capture_args argp).2 ≤ 512) ∧
      ∀ j, argp j = none → (capture_args argp).1 ≤ j + 1 := by
  intro argp
  refine ⟨⟨?_, ?_⟩, ?_⟩
  · simpa using capture_go_iter_le argp 32 0 0
  · exact capture_go_len_le argp 32 0 0 (by omega)
  · intro j hj
    exact capture_go_stops_at_none argp 32 0 0 j hj (Nat.zero_le j)

/-- Witness for claim C10 on an argument vector whose first pointer is null. -/
theorem c10_capture_args_bounded_witness :
    (capture_args (fun _ => none)).1 ≤ 32 ∧ (capture_args (fun _ => none)).1 ≤ 1 := by
  have h := c10_capture_args_bounded (fun _ => none)
  exact ⟨h.1.1, h.2 0 rfl⟩

end Kestrel
